import Mathlib

/-!
Verification of the Fast Bets Lookup widget (`src/assets/app.js` and the
functionally identical variant `src/unnamed/part_000`).

The JavaScript is embedded shallowly:
* JS values that flow through the renderer become the inductive `JSValue`
  (JSON values plus `undefined`; numbers are modelled as integers, the only
  numbers the program's data and the claims exercise).
* DOM construction (`h`, `renderKV`, the result rendering in `runFetch`)
  becomes pure construction of the `Node` tree.
* The imperative body of `runFetch` becomes a trace of `Step`s replayed
  against a `UIState`; the outcome of the awaited `client.request` is a
  parameter (`FetchOutcome`), and `client.request` itself appears in the
  trace as a `Step.request`, so "what network calls happen" is observable.
* The host-bridge reads (`client.get`) are modelled as `Except`/`Option`
  parameters; `getFastcodeFromTicket` and each of its call sites
  (initial load, `app.activated`/`ticket.submit.done`, live field change)
  become functions from the read result and current input value to the new
  input value.
-/

/-- A JavaScript value as the widget manipulates it: the JSON shapes the
endpoint can return, plus `undefined`.  Numbers are modelled as `Int`
(the program performs no arithmetic on payload numbers and every number
in the observed data and the claims is an integer). -/
inductive JSValue where
  | vNull
  | vUndefined
  | vBool (b : Bool)
  | vNum (n : Int)
  | vStr (s : String)
  | vArr (xs : List JSValue)
  | vObj (fields : List (String × JSValue))
deriving Repr

/-- JS truthiness: `false`, `0`, `''`, `null`, `undefined` are falsy;
every object and array is truthy. -/
def jsTruthy : JSValue → Bool
  | .vNull => false
  | .vUndefined => false
  | .vBool b => b
  | .vNum n => n ≠ 0
  | .vStr s => s ≠ ""
  | .vArr _ => true
  | .vObj _ => true

/-- The test `typeof v === 'object'` — true for `null`, arrays and objects. -/
def typeofIsObject : JSValue → Bool
  | .vNull => true
  | .vArr _ => true
  | .vObj _ => true
  | _ => false

/-- The test `Array.isArray(v)`. -/
def isArray : JSValue → Bool
  | .vArr _ => true
  | _ => false

/-- The enumeration `Object.keys(v)`.  For objects this is own-property order; the keys the
program's payloads use are non-numeric strings, for which JS enumeration
order is insertion order, as here.  For arrays and strings it is the list
of index strings; for primitives it is empty. -/
def jsKeys : JSValue → List String
  | .vObj fields => fields.map Prod.fst
  | .vArr xs => (List.range xs.length).map (fun i => toString i)
  | .vStr s => (List.range s.length).map (fun i => toString i)
  | _ => []

/-- Property access `obj[key]`, yielding `undefined` when absent. -/
def jsGet : JSValue → String → JSValue
  | .vObj fields, k =>
      match fields.find? (fun p => p.1 = k) with
      | some p => p.2
      | none => .vUndefined
  | .vArr xs, k =>
      match (List.range xs.length).findIdx? (fun i => toString i = k) with
      | some i => xs.getD i .vUndefined
      | none => .vUndefined
  | .vStr s, k =>
      match (List.range s.length).findIdx? (fun i => toString i = k) with
      | some i => .vStr (String.singleton (s.toList.getD i (Char.ofNat 32)))
      | none => .vUndefined
  | _, _ => .vUndefined

/-- The conversion `String(v)` for the values `renderKV` passes to it (primitives; the
array/object cases follow `Array.prototype.toString` /
`Object.prototype.toString` but are unreachable in `renderKV`, which
routes complex values to `JSON.stringify`). -/
def jsToString : JSValue → String
  | .vNull => "null"
  | .vUndefined => "undefined"
  | .vBool b => if b then "true" else "false"
  | .vNum n => toString n
  | .vStr s => s
  | .vArr _ => ""
  | .vObj _ => "[object Object]"

/-- One hexadecimal digit, uppercase (as `encodeURIComponent` emits). -/
def hexDigitUpper (n : Nat) : Char :=
  if n < 10 then Char.ofNat (48 + n) else Char.ofNat (55 + n)

/-- A run of `n` spaces (the accumulated `JSON.stringify` indentation). -/
def pad (n : Nat) : String :=
  String.mk (List.replicate n (Char.ofNat 32))

/-- ECMAScript `QuoteJSONString` escaping of one character. -/
def escapeJSONChar (c : Char) : String :=
  if c = Char.ofNat 34 then "\\\""
  else if c = Char.ofNat 92 then "\\\\"
  else if c = Char.ofNat 8 then "\\b"
  else if c = Char.ofNat 12 then "\\f"
  else if c = Char.ofNat 10 then "\\n"
  else if c = Char.ofNat 13 then "\\r"
  else if c = Char.ofNat 9 then "\\t"
  else if c.toNat < 32 then
    "\\u00" ++ String.singleton (hexDigitUpper (c.toNat / 16)) ++
      String.singleton (hexDigitUpper (c.toNat % 16))
  else String.singleton c

/-- ECMAScript `QuoteJSONString`. -/
def quoteJSONString (s : String) : String :=
  "\"" ++ String.join (s.toList.map escapeJSONChar) ++ "\""

mutual
/-- Serialization `JSON.stringify(v, null, 2)` at accumulated indentation `ind`
(ECMAScript `SerializeJSONProperty` with `gap = "  "`); `none` is the JS
result `undefined` (for `undefined` input). -/
def stringifyVal (ind : Nat) : JSValue → Option String
  | .vUndefined => none
  | .vNull => some "null"
  | .vBool b => some (if b then "true" else "false")
  | .vNum n => some (toString n)
  | .vStr s => some (quoteJSONString s)
  | .vArr [] => some "[]"
  | .vArr (x :: xs) =>
      some ("[\n" ++ pad (ind + 2) ++ stringifyElem (ind + 2) x ++
            stringifyArrRest (ind + 2) xs ++ "\n" ++ pad ind ++ "]")
  | .vObj fs =>
      match stringifyFields (ind + 2) fs with
      | [] => some "\x7b\x7d"
      | p :: ps =>
          some ("\x7b\n" ++ pad (ind + 2) ++ p ++
                String.join (ps.map (fun q => ",\n" ++ pad (ind + 2) ++ q)) ++
                "\n" ++ pad ind ++ "\x7d")

/-- An array element: `undefined` serializes as `"null"` inside arrays. -/
def stringifyElem (ind : Nat) (v : JSValue) : String :=
  (stringifyVal ind v).getD "null"

/-- The remaining array elements, each preceded by the separator. -/
def stringifyArrRest (ind : Nat) : List JSValue → String
  | [] => ""
  | x :: xs => ",\n" ++ pad ind ++ stringifyElem ind x ++ stringifyArrRest ind xs

/-- The serialized `"key": value` members of an object; members whose
value serializes to `undefined` are skipped. -/
def stringifyFields (ind : Nat) : List (String × JSValue) → List String
  | [] => []
  | (k, v) :: fs =>
      match stringifyVal ind v with
      | none => stringifyFields ind fs
      | some s => (quoteJSONString k ++ ": " ++ s) :: stringifyFields ind fs
end

/-! ## DOM model -/

/-- A DOM node: an element with its tag, attributes and children, or a
text node.  `h` stores the `class` attribute like any other attribute;
the JS sets `className`, which is observably the same attribute. -/
inductive Node where
  | elem (tag : String) (attrs : List (String × String)) (children : List Node)
  | text (s : String)
deriving Repr

/-- An entry of the (already array-wrapped) children argument of `h`:
a string, an element, or a falsy entry (`undefined`, the result of
`JSON.stringify(undefined, ...)`). -/
inductive Child where
  | str (s : String)
  | node (n : Node)
  | undef
deriving Repr

/-- The `filter(Boolean)` + append loop of `h`: elements are kept, strings
become text nodes unless empty (falsy), `undefined` is dropped. -/
def childKeep : Child → Option Node
  | .str s => if s = "" then none else some (.text s)
  | .node n => some n
  | .undef => none

/-- The hyperscript helper `h(tag, attrs, children)`. -/
def h (tag : String) (attrs : List (String × String)) (children : List Child) : Node :=
  .elem tag attrs (children.filterMap childKeep)

/-- Lift the `JSON.stringify` result (`Option String`) to a child, the JS
`undefined` becoming the falsy child. -/
def optChild : Option String → Child
  | none => .undef
  | some s => .str s

/-- The tag of a node (`""` for a text node). -/
def nodeTag : Node → String
  | .elem tag _ _ => tag
  | .text _ => ""

/-- The `class` attribute of a node (`""` when absent or a text node). -/
def nodeClass : Node → String
  | .elem _ attrs _ =>
      match attrs.find? (fun p => p.1 = "class") with
      | some p => p.2
      | none => ""
  | .text _ => ""

/-! ## Generic record renderer (`renderKV`) -/

/-- The "no data" placeholder `renderKV` returns for absent/empty input. -/
def noAttributesNode : Node :=
  h "div" [("class", "no-data-message")] [.str "No attributes to display."]

/-- One attribute card of `renderKV`: the key label and the value region,
a `pre` with the 2-space-indented JSON serialization for complex values
(`Array.isArray(value) || (value && typeof value === 'object')`), a `div`
with `String(value)` otherwise. -/
def renderCard (key : String) (value : JSValue) : Node :=
  let isComplexVal := isArray value || (jsTruthy value && typeofIsObject value)
  let valueEl :=
    if isComplexVal then
      h "pre" [("class", "attribute-value")] [optChild (stringifyVal 0 value)]
    else
      h "div" [("class", "attribute-value")] [.str (jsToString value)]
  h "div" [("class", "attribute-card")]
    [.node (h "div" [("class", "attribute-key")] [.str key]), .node valueEl]

/-- The renderer `renderKV(obj)`: the placeholder for falsy input or a non-array object
with zero keys; otherwise a container with one card per own key. -/
def renderKV (obj : JSValue) : Node :=
  if !jsTruthy obj || (typeofIsObject obj && !isArray obj && (jsKeys obj).length == 0) then
    noAttributesNode
  else
    h "div" [("class", "attributes-container")]
      ((jsKeys obj).map (fun key => Child.node (renderCard key (jsGet obj key))))

/-! ## Lookup flow (`runFetch`) -/

/-- The UI state the flow mutates: the input element's value, the error
region's text, the results container's children, the confirm button's
visibility (`style.display !== 'none'`), the fetch button's disabled flag. -/
structure UIState where
  inputValue : String
  errorText : String
  results : List Node
  confirmVisible : Bool
  fetchDisabled : Bool
deriving Repr

/-- One primitive effect of the flow, in program order.  `request` records
an outbound network call through `client.request`; `resize` is the host
resize invocation (no widget-visible state change). -/
inductive Step where
  | setErrorText (s : String)
  | clearResults
  | setConfirmVisible (b : Bool)
  | setFetchDisabled (b : Bool)
  | appendResult (n : Node)
  | request (method : String) (url : String)
  | resize
deriving Repr

/-- UTF-8 bytes of a character (ECMAScript `UTF8Encode`). -/
def utf8Bytes (c : Char) : List Nat :=
  let n := c.toNat
  if n < 128 then [n]
  else if n < 2048 then [192 + n / 64, 128 + n % 64]
  else if n < 65536 then [224 + n / 4096, 128 + (n / 64) % 64, 128 + n % 64]
  else [240 + n / 262144, 128 + (n / 4096) % 64, 128 + (n / 64) % 64, 128 + n % 64]

/-- The characters `encodeURIComponent` leaves unescaped: ASCII letters,
digits, and `- _ . ! ~ * ( )` and the apostrophe (codes listed). -/
def uriUnescapedChar (c : Char) : Bool :=
  c.isAlpha || c.isDigit ||
    [45, 95, 46, 33, 126, 42, 39, 40, 41].contains c.toNat

/-- Percent-encoding of one character: each UTF-8 byte as `%`+uppercase hex. -/
def percentEncodeChar (c : Char) : String :=
  String.join ((utf8Bytes c).map (fun b =>
    "%" ++ String.singleton (hexDigitUpper (b / 16)) ++
      String.singleton (hexDigitUpper (b % 16))))

/-- ECMAScript `encodeURIComponent`. -/
def encodeURIComponent (s : String) : String :=
  String.join (s.toList.map (fun c =>
    if uriUnescapedChar c then String.singleton c else percentEncodeChar c))

/-- The fixed lookup endpoint. -/
def lookupEndpoint : String :=
  "https://t9tjcj1rud.execute-api.us-east-1.amazonaws.com/sportsbet/getFastBets"

/-- The URL `runFetch` builds for a code. -/
def lookupUrl (code : String) : String :=
  lookupEndpoint ++ "?fastcode=" ++ encodeURIComponent code

/-- The outcome of the awaited `client.request`: resolved JSON data, or a
rejection whose `responseText` may be absent. -/
inductive FetchOutcome where
  | success (data : JSValue)
  | failure (responseText : Option String)
deriving Repr

/-- The loading indicator appended before the request. -/
def loadingNode : Node :=
  h "div" [("class", "loading-container")]
    [.node (h "div" [] [.str "Loading…"]),
     .node (h "p" [] [.str "Fetching Fast Bets for your fastcode"])]

/-- The catch-branch error text: `` `Request failed: ${err && err.responseText
? err.responseText : 'An unknown error occurred.'}` `` (an empty
`responseText` is falsy, hence also the generic message). -/
def requestFailedMessage (responseText : Option String) : String :=
  "Request failed: " ++
    (match responseText with
     | some s => if s = "" then "An unknown error occurred." else s
     | none => "An unknown error occurred.")

/-- The `Item n` label above each rendered array element (`idx` 0-based). -/
def itemLabelNode (idx : Nat) : Node :=
  h "div" [("class", "label")] [.str ("Item " ++ toString (idx + 1))]

/-- The "No results." placeholder for an empty array response. -/
def noResultsNode : Node :=
  h "div" [("class", "no-data-message")] [.str "No results."]

/-- The `data.forEach((item, idx) => ...)` loop: an `Item n` label followed
by `renderKV(item)` for each element. -/
def renderArrayItems : Nat → List JSValue → List Node
  | _, [] => []
  | idx, x :: xs => itemLabelNode idx :: renderKV x :: renderArrayItems (idx + 1) xs

/-- The fallback branch for a response that is neither an array nor a
truthy object: one card labeled `value` holding `JSON.stringify(data, null, 2)`. -/
def fallbackScalarNode (data : JSValue) : Node :=
  h "div" [("class", "attributes-container")]
    [.node (h "div" [("class", "attribute-card")]
      [.node (h "div" [("class", "attribute-key")] [.str "value"]),
       .node (h "pre" [("class", "attribute-value")] [optChild (stringifyVal 0 data)])])]

/-- The nodes the success branch appends to the (just cleared) results
container: the three-way dispatch on the response's structure. -/
def renderSuccess (data : JSValue) : List Node :=
  match data with
  | .vArr [] => [noResultsNode]
  | .vArr (x :: xs) => renderArrayItems 0 (x :: xs)
  | _ =>
      if jsTruthy data && typeofIsObject data then [renderKV data]
      else [fallbackScalarNode data]

/-- The flow `runFetch(ctx)` as the ordered trace of its effects, statement by
statement from the source; `outcome` stands for what the awaited
`client.request` did. -/
def runFetchTrace (code : String) (outcome : FetchOutcome) : List Step :=
  [.setErrorText "", .clearResults, .setConfirmVisible false] ++
  (if code = "" then
    [.setErrorText "Please enter a fastcode.", .resize]
  else
    [.setFetchDisabled true, .appendResult loadingNode, .resize,
     .request "GET" (lookupUrl code)] ++
    (match outcome with
     | .success data =>
         Step.clearResults :: (renderSuccess data).map Step.appendResult ++
         [.setConfirmVisible true]
     | .failure rt =>
         [.setErrorText (requestFailedMessage rt), .setConfirmVisible false]) ++
    [.setFetchDisabled false, .resize])

/-- Replay one step against the UI state. -/
def applyStep (s : UIState) : Step → UIState
  | .setErrorText t => { s with errorText := t }
  | .clearResults => { s with results := [] }
  | .setConfirmVisible b => { s with confirmVisible := b }
  | .setFetchDisabled b => { s with fetchDisabled := b }
  | .appendResult n => { s with results := s.results ++ [n] }
  | .request _ _ => s
  | .resize => s

/-- Replay a trace. -/
def runTrace (s : UIState) (steps : List Step) : UIState :=
  steps.foldl applyStep s

/-- The state after one `runFetch` invocation. -/
def runFetch (s : UIState) (code : String) (outcome : FetchOutcome) : UIState :=
  runTrace s (runFetchTrace code outcome)

/-- The characters `String.prototype.trim` removes (ECMAScript WhiteSpace
and LineTerminator code points). -/
def isJsWhitespace (c : Char) : Bool :=
  [9, 10, 11, 12, 13, 32, 160, 0x1680, 0x2000, 0x2001, 0x2002, 0x2003, 0x2004,
   0x2005, 0x2006, 0x2007, 0x2008, 0x2009, 0x200A, 0x2028, 0x2029, 0x202F,
   0x205F, 0x3000, 0xFEFF].contains c.toNat

/-- The JS `String.prototype.trim`: strip leading and trailing whitespace. -/
def jsTrim (s : String) : String :=
  String.mk (((s.toList.dropWhile isJsWhitespace).reverse.dropWhile
    isJsWhitespace).reverse)

/-- The form submit handler: `runFetch` on `(input.value || '').trim()`
(for a string value, `input.value || ''` is `input.value`). -/
def submitTrace (inputValue : String) (outcome : FetchOutcome) : List Step :=
  runFetchTrace (jsTrim inputValue) outcome

/-- The state after a form submit. -/
def submitRun (s : UIState) (outcome : FetchOutcome) : UIState :=
  runTrace s (submitTrace s.inputValue outcome)

/-- The outbound network calls (method, url) recorded in a trace. -/
def requestsOf (steps : List Step) : List (String × String) :=
  steps.filterMap (fun st =>
    match st with
    | .request m u => some (m, u)
    | _ => none)

/-- The UI state `buildUI` creates: empty input, empty error, no results,
confirm hidden, fetch enabled. -/
def buildUIState : UIState :=
  { inputValue := "", errorText := "", results := [], confirmVisible := false,
    fetchDisabled := false }

/-! ## Host bridge and ticket sync -/

/-- An error carried by a rejected host call. -/
structure HostError where
  message : String
deriving Repr, DecidableEq

/-- The read `getFastcodeFromTicket()`: `client.get` resolves to the field value
(`none` = the property is absent/undefined) or rejects; the function
returns `resp[key] || ''` and lets a rejection of `client.get` propagate
to its caller. -/
def getFastcodeFromTicket : Except HostError (Option String) → Except HostError String
  | .error e => .error e
  | .ok none => .ok ""
  | .ok (some s) => .ok (if s = "" then "" else s)

/-- The `syncFastcodeFromTicket` helper bound to `app.activated` and
`ticket.submit.done`: reads the field, overwrites the input only when the
value is truthy and differs (`if (fc && fc !== ui.input.value)`), and
swallows a read failure (catch → `console.warn`, input untouched). -/
def syncFastcodeFromTicket (read : Except HostError (Option String))
    (inputValue : String) : String :=
  match getFastcodeFromTicket read with
  | .error _ => inputValue
  | .ok fc => if fc ≠ "" ∧ fc ≠ inputValue then fc else inputValue

/-- The initial-load sync in `init`: overwrites the input only when the
value read is truthy (`if (initialFastcode)`), read failure caught. -/
def initialLoadSync (read : Except HostError (Option String))
    (inputValue : String) : String :=
  match getFastcodeFromTicket read with
  | .error _ => inputValue
  | .ok fc => if fc ≠ "" then fc else inputValue

/-- What `subscribeToFastcodeUIChanges` passes to its callback:
`e && e.newValue ? String(e.newValue).trim() : ''` (`none` = no
`newValue`; an empty `newValue` is falsy). -/
def fieldChangeNotificationValue (newValue : Option String) : String :=
  match newValue with
  | some s => if s = "" then "" else jsTrim s
  | none => ""

/-- The live field-change handler: assigns the (trimmed) notification
value to the input unconditionally (`ui.input.value = value`), touching
nothing else. -/
def fieldChangeHandler (newValue : Option String) (s : UIState) : UIState :=
  { s with inputValue := fieldChangeNotificationValue newValue }

/-! ## Shared lemmas about the flow -/

theorem foldl_appendResult (nodes : List Node) (s : UIState) :
    List.foldl applyStep s (nodes.map Step.appendResult) =
      { s with results := s.results ++ nodes } := by
  induction nodes generalizing s with
  | nil => cases s; simp
  | cons n ns ih => cases s; simp [applyStep, ih]

theorem runFetch_empty_eq (s : UIState) (outcome : FetchOutcome) :
    runFetch s "" outcome =
      { s with errorText := "Please enter a fastcode.", results := [],
               confirmVisible := false } := by
  cases s
  simp [runFetch, runFetchTrace, runTrace, applyStep]

theorem runFetch_success_eq (s : UIState) (code : String) (data : JSValue)
    (hcode : code ≠ "") :
    runFetch s code (.success data) =
      { s with errorText := "", results := renderSuccess data,
               confirmVisible := true, fetchDisabled := false } := by
  cases s
  simp [runFetch, runFetchTrace, hcode, runTrace, List.foldl_append, applyStep,
    foldl_appendResult]

theorem runFetch_failure_eq (s : UIState) (code : String) (rt : Option String)
    (hcode : code ≠ "") :
    runFetch s code (.failure rt) =
      { s with errorText := requestFailedMessage rt, results := [loadingNode],
               confirmVisible := false, fetchDisabled := false } := by
  cases s
  simp [runFetch, runFetchTrace, hcode, runTrace, List.foldl_append, applyStep]

theorem requestsOf_appendResults (nodes : List Node) :
    (nodes.map Step.appendResult).filterMap (fun st =>
      match st with
      | Step.request m u => some (m, u)
      | _ => none) = ([] : List (String × String)) := by
  induction nodes with
  | nil => rfl
  | cons n ns ih => simp [ih]

theorem requestsOf_runFetchTrace (code : String) (outcome : FetchOutcome)
    (hcode : code ≠ "") :
    requestsOf (runFetchTrace code outcome) = [("GET", lookupUrl code)] := by
  cases outcome <;>
    simp [runFetchTrace, hcode, requestsOf, requestsOf_appendResults]

theorem requestsOf_runFetchTrace_empty (outcome : FetchOutcome) :
    requestsOf (runFetchTrace "" outcome) = [] := by
  simp [runFetchTrace, requestsOf]

/-! ## Claims -/

/-- C1: for every non-empty trimmed input string, one invocation of the
lookup flow records exactly one outbound network call — a GET whose URL is
the fixed endpoint with that exact string percent-encoded as the value of
the `fastcode` query parameter — whatever the request's outcome. -/
theorem lookup_single_get (raw : String) (outcome : FetchOutcome)
    (hne : jsTrim raw ≠ "") :
    requestsOf (submitTrace raw outcome) =
      [("GET", lookupEndpoint ++ "?fastcode=" ++ encodeURIComponent (jsTrim raw))] := by
  unfold submitTrace
  rw [requestsOf_runFetchTrace _ _ hne]
  rfl

/-- Witness for C1 at the input `"  fast 42  "`: it trims to `"fast 42"`,
whose space is percent-encoded as `%20`. -/
theorem lookup_single_get_witness :
    jsTrim "  fast 42  " ≠ "" ∧
      requestsOf (submitTrace "  fast 42  " (.failure none)) =
        [("GET", "https://t9tjcj1rud.execute-api.us-east-1.amazonaws.com/sportsbet/getFastBets?fastcode=fast%2042")] := by
  refine ⟨by decide, ?_⟩
  rw [lookup_single_get "  fast 42  " (.failure none) (by decide)]
  rfl

/-- C5: for every input that is empty or whitespace only (its trim is
empty), the submit flow records no network call and leaves the error
region reading exactly "Please enter a fastcode.". -/
theorem empty_input_no_fetch (s : UIState) (outcome : FetchOutcome)
    (hempty : jsTrim s.inputValue = "") :
    requestsOf (submitTrace s.inputValue outcome) = [] ∧
      (submitRun s outcome).errorText = "Please enter a fastcode." := by
  constructor
  · rw [submitTrace, hempty]
    exact requestsOf_runFetchTrace_empty outcome
  · show (runTrace s (runFetchTrace (jsTrim s.inputValue) outcome)).errorText = _
    rw [hempty]
    have h1 : runTrace s (runFetchTrace "" outcome) = runFetch s "" outcome := rfl
    rw [h1, runFetch_empty_eq]

/-- Witness for C5 at the whitespace-only input `"   "`. -/
theorem empty_input_no_fetch_witness :
    jsTrim "   " = "" ∧
      (requestsOf (submitTrace "   " (.failure none)) = [] ∧
        (submitRun { buildUIState with inputValue := "   " } (.failure none)).errorText =
          "Please enter a fastcode.") :=
  ⟨by decide,
    empty_input_no_fetch { buildUIState with inputValue := "   " } (.failure none) (by decide)⟩

/-- C2: a live field-change notification whose delivered (trimmed) value
equals the input element's current value leaves the entire UI state —
input value included — unchanged. -/
theorem fieldChange_same_value_noop (newValue : Option String) (s : UIState)
    (hsame : fieldChangeNotificationValue newValue = s.inputValue) :
    fieldChangeHandler newValue s = s := by
  cases s
  simp only [fieldChangeHandler]
  simp [hsame]

/-- Witness for C2: the notification `" ab "` trims to `"ab"`, the current
input value, and the handler leaves the state unchanged. -/
theorem fieldChange_same_value_noop_witness :
    fieldChangeNotificationValue (some " ab ") =
        ({ buildUIState with inputValue := "ab" } : UIState).inputValue ∧
      fieldChangeHandler (some " ab ") { buildUIState with inputValue := "ab" } =
        { buildUIState with inputValue := "ab" } :=
  ⟨by decide, fieldChange_same_value_noop _ _ (by decide)⟩

/-- C3 counterexample: on an `app.activated` / `ticket.submit.done` sync
where the host field reads back the empty string while the input holds
`"ABC"`, the value delivered differs from the input, yet the coordinator
leaves the input at `"ABC"` instead of overwriting it with `""`. -/
theorem sync_empty_read_leaves_input :
    getFastcodeFromTicket (Except.ok (some "")) = Except.ok "" ∧
      ("" : String) ≠ "ABC" ∧
      syncFastcodeFromTicket (Except.ok (some "")) "ABC" = "ABC" :=
  ⟨rfl, by decide, by decide⟩

/-- C3 amended: the read-based triggers (initial load, `app.activated`,
`ticket.submit.done`) overwrite the input exactly when the value read is
non-empty — an empty read leaves the input untouched — while the live
field-change handler overwrites the input unconditionally, the empty
string included. -/
theorem sync_overwrite_policy :
    (∀ read v input, getFastcodeFromTicket read = Except.ok v →
        syncFastcodeFromTicket read input = (if v = "" then input else v)) ∧
    (∀ read v input, getFastcodeFromTicket read = Except.ok v →
        initialLoadSync read input = (if v = "" then input else v)) ∧
    (∀ newValue s, fieldChangeHandler newValue s =
        { s with inputValue := fieldChangeNotificationValue newValue }) := by
  refine ⟨?_, ?_, fun _ _ => rfl⟩
  · intro read v input hread
    unfold syncFastcodeFromTicket
    rw [hread]
    by_cases hv : v = ""
    · subst hv; simp
    · by_cases hvi : v = input
      · subst hvi; simp [hv]
      · simp [hv, hvi]
  · intro read v input hread
    unfold initialLoadSync
    rw [hread]
    by_cases hv : v = "" <;> simp [hv]

/-- Witness for the amended C3: a non-empty read overwrites, an absent
read (resolving to the empty string) does not. -/
theorem sync_overwrite_policy_witness :
    syncFastcodeFromTicket (Except.ok (some "Z9")) "old" =
        (if ("Z9" : String) = "" then "old" else "Z9") ∧
      initialLoadSync (Except.ok none) "keep" =
        (if ("" : String) = "" then "keep" else "") :=
  ⟨sync_overwrite_policy.1 (Except.ok (some "Z9")) "Z9" "old" rfl,
   sync_overwrite_policy.2.1 (Except.ok none) "" "keep" rfl⟩

/-- C4 counterexample: when the host read rejects,
`getFastcodeFromTicket` propagates the rejection to its caller instead of
resolving to the empty string. -/
theorem getFastcode_propagates_failure :
    getFastcodeFromTicket (Except.error ⟨"host read failed"⟩) =
        Except.error ⟨"host read failed"⟩ ∧
      getFastcodeFromTicket (Except.error ⟨"host read failed"⟩) ≠
        Except.ok "" :=
  ⟨rfl, fun hv => Except.noConfusion hv⟩

/-- C4 amended: the read resolves to the empty string when the attribute
is absent, but on host read failure it rejects and the rejection
propagates to the caller; every call site catches it there and leaves the
input unchanged. -/
theorem getFastcode_absent_and_failure :
    (getFastcodeFromTicket (Except.ok none) = Except.ok "") ∧
    (∀ e, getFastcodeFromTicket (Except.error e) = Except.error e) ∧
    (∀ e input, syncFastcodeFromTicket (Except.error e) input = input) ∧
    (∀ e input, initialLoadSync (Except.error e) input = input) :=
  ⟨rfl, fun _ => rfl, fun _ _ => rfl, fun _ _ => rfl⟩

/-- C6: for any lookup invocation that reaches the network (non-empty
code), a successful response leaves the confirm control visible, and a
failed request (transport error or non-success status) leaves it
hidden. -/
theorem confirm_visibility (s : UIState) (code : String)
    (outcome : FetchOutcome) (hcode : code ≠ "") :
    (runFetch s code outcome).confirmVisible =
      (match outcome with
       | .success _ => true
       | .failure _ => false) := by
  cases outcome with
  | success data => rw [runFetch_success_eq s code data hcode]
  | failure rt => rw [runFetch_failure_eq s code rt hcode]

/-- Witness for C6: visible after a success, hidden after a failure. -/
theorem confirm_visibility_witness :
    (runFetch buildUIState "x" (.success (.vObj [("a", .vStr "1")]))).confirmVisible
        = true ∧
      (runFetch buildUIState "x" (.failure (some "boom"))).confirmVisible = false :=
  ⟨confirm_visibility buildUIState "x" _ (by decide),
   confirm_visibility buildUIState "x" _ (by decide)⟩

/-- C7: on the object response `\x7b"a":"1","b":\x7b"c":2\x7d\x7d` the renderer
produces exactly two cards in key order — `a` with the plain text `1`,
and `b` with the 2-space-indented JSON serialization of its value. -/
theorem renderKV_two_cards :
    stringifyVal 0 (.vObj [("c", .vNum 2)]) = some "\x7b\n  \"c\": 2\n\x7d" ∧
      renderKV (.vObj [("a", .vStr "1"), ("b", .vObj [("c", .vNum 2)])]) =
        Node.elem "div" [("class", "attributes-container")]
          [Node.elem "div" [("class", "attribute-card")]
            [Node.elem "div" [("class", "attribute-key")] [Node.text "a"],
             Node.elem "div" [("class", "attribute-value")] [Node.text "1"]],
           Node.elem "div" [("class", "attribute-card")]
            [Node.elem "div" [("class", "attribute-key")] [Node.text "b"],
             Node.elem "pre" [("class", "attribute-value")]
               [Node.text "\x7b\n  \"c\": 2\n\x7d"]]] := by
  constructor
  · simp [stringifyVal, stringifyFields, quoteJSONString, escapeJSONChar, pad]
    rfl
  · simp [renderKV, jsTruthy, typeofIsObject, isArray, jsKeys, jsGet, h,
      renderCard, childKeep, jsToString, optChild, stringifyVal, stringifyFields,
      quoteJSONString, escapeJSONChar, pad, List.find?]
    rfl

/-- C8 counterexample: the successful response `null` (an absent value) is
not rendered as the "No attributes to display." placeholder — the flow's
fallback branch renders one `attributes-container` card labeled `value`. -/
theorem null_response_renders_fallback_card :
    (runFetch buildUIState "x" (.success .vNull)).results =
        [fallbackScalarNode .vNull] ∧
      nodeClass (fallbackScalarNode .vNull) = "attributes-container" ∧
      nodeClass noAttributesNode = "no-data-message" ∧
      fallbackScalarNode .vNull ≠ noAttributesNode := by
  refine ⟨?_, rfl, rfl, ?_⟩
  · rw [runFetch_success_eq buildUIState "x" .vNull (by decide)]
    rfl
  · intro heq
    have hc := congrArg nodeClass heq
    rw [show nodeClass (fallbackScalarNode .vNull) = "attributes-container" from rfl,
      show nodeClass noAttributesNode = "no-data-message" from rfl] at hc
    exact absurd hc (by decide)

/-- C8 amended: an empty-list response renders exactly the "No results."
placeholder and a non-array object with zero keys exactly the "No
attributes to display." placeholder, but an absent (`null`/`undefined`)
response is rendered by the scalar fallback as a single card; the record
renderer itself, handed an absent value, does yield the placeholder. -/
theorem degenerate_responses_render (s : UIState) (code : String)
    (hcode : code ≠ "") :
    (runFetch s code (.success (.vArr []))).results = [noResultsNode] ∧
    (runFetch s code (.success (.vObj []))).results = [noAttributesNode] ∧
    (runFetch s code (.success .vNull)).results = [fallbackScalarNode .vNull] ∧
    (runFetch s code (.success .vUndefined)).results =
      [fallbackScalarNode .vUndefined] ∧
    renderKV .vNull = noAttributesNode ∧
    renderKV .vUndefined = noAttributesNode := by
  refine ⟨?_, ?_, ?_, ?_, rfl, rfl⟩ <;> (rw [runFetch_success_eq s code _ hcode]; rfl)

/-- Witness for the amended C8 at the code `"x"` and the fresh UI. -/
theorem degenerate_responses_render_witness :
    (runFetch buildUIState "x" (.success (.vArr []))).results = [noResultsNode] ∧
      (runFetch buildUIState "x" (.success (.vObj []))).results =
        [noAttributesNode] :=
  ⟨(degenerate_responses_render buildUIState "x" (by decide)).1,
   (degenerate_responses_render buildUIState "x" (by decide)).2.1⟩

/-- C9: every invocation's first three steps — before validation and
before any network step, which can only occur from position 3 on — clear
the error text, empty the results container and hide the confirm control;
consequently the final results and error text never depend on the prior
UI state (at most the current lookup's result is displayed). -/
theorem reset_first (s s₂ : UIState) (code : String) (outcome : FetchOutcome) :
    (runFetchTrace code outcome).take 3 =
        [Step.setErrorText "", Step.clearResults, Step.setConfirmVisible false] ∧
      runTrace s ((runFetchTrace code outcome).take 3) =
        { s with errorText := "", results := [], confirmVisible := false } ∧
      (∀ i m u, (runFetchTrace code outcome).get? i = some (Step.request m u) →
        3 ≤ i) ∧
      (runFetch s code outcome).results = (runFetch s₂ code outcome).results ∧
      (runFetch s code outcome).errorText = (runFetch s₂ code outcome).errorText := by
  refine ⟨rfl, by cases s; rfl, ?_, ?_⟩
  · intro i m u hget
    rcases i with _ | _ | _ | i
    · simp [runFetchTrace] at hget
    · simp [runFetchTrace] at hget
    · simp [runFetchTrace] at hget
    · omega
  · by_cases hcode : code = ""
    · subst hcode
      rw [runFetch_empty_eq, runFetch_empty_eq]
      exact ⟨rfl, rfl⟩
    · cases outcome with
      | success data =>
          rw [runFetch_success_eq _ _ _ hcode, runFetch_success_eq _ _ _ hcode]
          exact ⟨rfl, rfl⟩
      | failure rt =>
          rw [runFetch_failure_eq _ _ _ hcode, runFetch_failure_eq _ _ _ hcode]
          exact ⟨rfl, rfl⟩

/-- Witness for C9: the reset prefix of a concrete trace, and the final
results agreeing between a fresh UI and one still showing an old result. -/
theorem reset_first_witness :
    (runFetchTrace "x" (.failure none)).take 3 =
        [Step.setErrorText "", Step.clearResults, Step.setConfirmVisible false] ∧
      (runFetch buildUIState "x" (.failure none)).results =
        (runFetch { buildUIState with results := [noResultsNode], errorText := "old" } "x" (.failure none)).results :=
  ⟨(reset_first buildUIState buildUIState "x" (.failure none)).1,
   (reset_first buildUIState
      { buildUIState with results := [noResultsNode], errorText := "old" }
      "x" (.failure none)).2.2.2.1⟩

/-- C10: the renderer maps every falsy value — `null`, `undefined`,
`false`, `0`, `''` — to the "No attributes to display." placeholder, so
an array response containing such an element shows the placeholder (not a
value card) under the element's `Item 1` label. -/
theorem falsy_renders_placeholder (v : JSValue) (hfalsy : jsTruthy v = false) :
    renderKV v = noAttributesNode ∧
      renderSuccess (.vArr [v]) = [itemLabelNode 0, noAttributesNode] := by
  have hkv : renderKV v = noAttributesNode := by
    unfold renderKV
    simp [hfalsy]
  exact ⟨hkv, by simp [renderSuccess, renderArrayItems, hkv]⟩

/-- Witness for C10 at the falsy element `0`. -/
theorem falsy_renders_placeholder_witness :
    jsTruthy (JSValue.vNum 0) = false ∧
      (renderKV (JSValue.vNum 0) = noAttributesNode ∧
        renderSuccess (.vArr [JSValue.vNum 0]) =
          [itemLabelNode 0, noAttributesNode]) :=
  ⟨by decide, falsy_renders_placeholder (JSValue.vNum 0) (by decide)⟩
